import Mathlib

/-!
Verification of the fluorescence-scan federated GraphQL subgraph.

Shallow embedding of the repository's request-resolution pipeline:
the row mapper (`FluorescenceScan.from_model`), the GraphQL resolvers
(`Query.router_session`, `Session.fluorescence_scan`), the schema
declaration (`root_schema_builder`) and the transport request handler
(`GraphQLHandler.call`), translated from
`src/fluorescence_scan/src/graphql/entities.rs`,
`src/fluorescence-scan/src/graphql/mod.rs` and
`src/florescence-scan/src/route_handlers.rs`.
-/

/-- The identifier type used at the public interface: a 32-bit unsigned
integer, embedded as a natural number strictly below 2^32. -/
abbrev U32 := Fin 4294967296

/-- Embedding of an `f32` value carried by the backing store.  The code
never computes with these values, it only copies them, so the embedding
records the 32 raw bits and nothing else. -/
structure F32 where
  bits : U32
deriving DecidableEq, Repr

/-- Embedding of `chrono::NaiveDateTime`: a timestamp without a timezone,
recorded as ticks since the epoch. -/
structure NaiveDateTime where
  ticks : Int
deriving DecidableEq, Repr

/-- Embedding of `chrono::DateTime<Utc>`: a timezone-qualified timestamp
whose timezone is UTC. -/
structure DateTimeUtc where
  naive : NaiveDateTime
deriving DecidableEq, Repr

/-- Embedding of `chrono::NaiveDateTime::and_utc`: reinterprets a naive
timestamp as UTC without changing the instant. -/
def NaiveDateTime.and_utc (t : NaiveDateTime) : DateTimeUtc :=
  ⟨t⟩

namespace xfe_fluorescence_spectrum

/-- Embedding of `models::xfe_fluorescence_spectrum::Model`: one row of the
XFEFluorescenceSpectrum table, with the field shape read off the `From`
impl in `src/fluorescence_scan/src/graphql/entities.rs`. -/
structure Model where
  xfe_fluorescence_spectrum_id : U32
  session_id : U32
  jpeg_scan_file_full_path : Option String
  start_time : Option NaiveDateTime
  end_time : Option NaiveDateTime
  filename : Option String
  exposure_time : Option F32
  axis_position : Option F32
  beam_transmission : Option F32
  scan_file_full_path : Option String
  energy : Option F32
  beam_size_vertical : Option F32
  beam_size_horizontal : Option F32
deriving DecidableEq, Repr

end xfe_fluorescence_spectrum

/-- Embedding of the `Session` entity of
`src/fluorescence_scan/src/graphql/entities.rs`: a federation stub holding
only an opaque `u32` identifier. -/
structure Session where
  id : U32
deriving DecidableEq, Repr

/-- Embedding of the `FluorescenceScan` entity of
`src/fluorescence_scan/src/graphql/entities.rs`. -/
structure FluorescenceScan where
  id : U32
  session_id : U32
  jpeg_scan_file_full_path : Option String
  start_time : Option DateTimeUtc
  end_time : Option DateTimeUtc
  filename : Option String
  exposure_time : Option F32
  axis_position : Option F32
  beam_transmission : Option F32
  scan_file_full_path : Option String
  energy : Option F32
  beam_size_vertical : Option F32
  beam_size_horizontal : Option F32
deriving DecidableEq, Repr

/-- Embedding of `impl From<xfe_fluorescence_spectrum::Model> for
FluorescenceScan` (the Row Mapper): a pure field-by-field copy renaming
the primary key to `id` and retagging the naive timestamps as UTC. -/
def FluorescenceScan.from_model (value : xfe_fluorescence_spectrum.Model) :
    FluorescenceScan where
  id := value.xfe_fluorescence_spectrum_id
  session_id := value.session_id
  jpeg_scan_file_full_path := value.jpeg_scan_file_full_path
  start_time := value.start_time.map (fun time => time.and_utc)
  end_time := value.end_time.map (fun time => time.and_utc)
  filename := value.filename
  exposure_time := value.exposure_time
  axis_position := value.axis_position
  beam_transmission := value.beam_transmission
  scan_file_full_path := value.scan_file_full_path
  energy := value.energy
  beam_size_vertical := value.beam_size_vertical
  beam_size_horizontal := value.beam_size_horizontal

/-- Embedding of `sea_orm::DatabaseConnection` as seen through the single
query contract the resolvers use: it holds the XFEFluorescenceSpectrum
table rows in their natural return order, together with an optional
failure the next query reports (connectivity or query error). -/
structure DatabaseConnection where
  table : List xfe_fluorescence_spectrum.Model
  queryFailure : Option String
deriving DecidableEq, Repr

/-- Embedding of `aws_sdk_s3::Client`: opaque to the resolvers, which never
call it; only its identity matters for frame properties. -/
structure S3Client where
  clientId : Nat
deriving DecidableEq, Repr

/-- Embedding of `S3Bucket` from `src/florescence-scan/src/main.rs`: a
newtype over the bucket name string. -/
structure S3Bucket where
  name : String
deriving DecidableEq, Repr

/-- Embedding of the error type `async_graphql::Error` as the resolvers
produce it: either the distinct missing-context-value error raised by
`Context::data`, or an error propagated from the database query. -/
inductive ResolverError where
  | missingContextValue (typeName : String)
  | databaseError (message : String)
deriving DecidableEq, Repr

/-- Embedding of the request-scoped `async_graphql::Context` data store:
the three per-request dependencies the handler attaches, each possibly
absent so that the checked lookup is meaningful. -/
structure Context where
  database : Option DatabaseConnection
  s3Client : Option S3Client
  s3Bucket : Option S3Bucket
deriving DecidableEq, Repr

/-- Embedding of `ctx.data::<DatabaseConnection>()`: a checked lookup that
fails with the distinct missing-context-value error when the handle is
absent. -/
def Context.dataDatabaseConnection (ctx : Context) :
    Except ResolverError DatabaseConnection :=
  match ctx.database with
  | some database => .ok database
  | none => .error (.missingContextValue "DatabaseConnection")

namespace xfe_fluorescence_spectrum

/-- Embedding of `xfe_fluorescence_spectrum::Entity::find()
.filter(Column::SessionId.eq(sid)).all(db)`: returns every table row whose
`session_id` column equals `sid`, in the store's natural order, or the
connection's pending failure. -/
def Entity.findBySessionIdAll (db : DatabaseConnection) (sid : U32) :
    Except ResolverError (List Model) :=
  match db.queryFailure with
  | some message => .error (.databaseError message)
  | none => .ok (db.table.filter (fun row => row.session_id == sid))

end xfe_fluorescence_spectrum

/-- Embedding of the `Session::fluorescence_scan` field resolver of
`src/fluorescence-scan/src/graphql/mod.rs`: fetches the database handle
from the request context, queries all rows whose owning-session column
equals `self.id`, and maps each row through the Row Mapper. -/
def Session.fluorescence_scan (self : Session) (ctx : Context) :
    Except ResolverError (List FluorescenceScan) :=
  match ctx.dataDatabaseConnection with
  | .error e => .error e
  | .ok database =>
    match xfe_fluorescence_spectrum.Entity.findBySessionIdAll database self.id with
    | .error e => .error e
    | .ok rows => .ok (rows.map FluorescenceScan.from_model)

/-- Embedding of the root `Query` type of
`src/fluorescence-scan/src/graphql/mod.rs`: a unit struct. -/
structure Query where
deriving DecidableEq, Repr

/-- Embedding of `Query::router_session`, the federation entity resolver:
constructs a `Session` stub from the `u32` key, with no context access and
no failure path. -/
def Query.router_session (_self : Query) (id : U32) : Session :=
  { id := id }

/-- Graph-level attributes a type carries through its `#[graphql(...)]`
annotations in `src/fluorescence_scan/src/graphql/entities.rs`. -/
structure GraphqlTypeAttrs where
  typeName : String
  complex : Bool
  unresolvable : Bool
deriving DecidableEq, Repr

/-- The `#[graphql(name = "Session", complex)]` attributes of `Session`. -/
def Session.graphqlAttrs : GraphqlTypeAttrs :=
  { typeName := "Session", complex := true, unresolvable := false }

/-- The `#[graphql(name = "FluorescenceScan", unresolvable)]` attributes of
`FluorescenceScan`. -/
def FluorescenceScan.graphqlAttrs : GraphqlTypeAttrs :=
  { typeName := "FluorescenceScan", complex := false, unresolvable := true }

/-- The entity types the subgraph declares: the two structs of
`src/fluorescence_scan/src/graphql/entities.rs`. -/
def declaredEntityTypes : List GraphqlTypeAttrs :=
  [Session.graphqlAttrs, FluorescenceScan.graphqlAttrs]

/-- The return types of the `#[graphql(entity)]` resolvers on `Query`:
only `router_session`, which returns `Session`. -/
def Query.entityResolverTypes : List String :=
  ["Session"]

/-- Embedding of `async_graphql::EmptyMutation`: a mutation root declaring
no fields. -/
def EmptyMutation.fields : List String := []

/-- Embedding of `async_graphql::EmptySubscription`: a subscription root
declaring no fields. -/
def EmptySubscription.fields : List String := []

/-- The declarative content of a compiled schema, as assembled by
`Schema::build(..).enable_federation()`. -/
structure RootSchemaDecl where
  mutationFields : List String
  subscriptionFields : List String
  federationEnabled : Bool
  referenceTargetTypes : List String
  unresolvableTypes : List String
deriving DecidableEq, Repr

/-- Embedding of `root_schema_builder` of
`src/fluorescence-scan/src/graphql/mod.rs`:
`Schema::build(Query, EmptyMutation, EmptySubscription).enable_federation()`
over the declared entity types. -/
def root_schema_builder : RootSchemaDecl where
  mutationFields := EmptyMutation.fields
  subscriptionFields := EmptySubscription.fields
  federationEnabled := true
  referenceTargetTypes := Query.entityResolverTypes
  unresolvableTypes :=
    (declaredEntityTypes.filter (fun t => t.unresolvable)).map
      (fun t => t.typeName)

/-- Embedding of a parsed `async_graphql::Request` (the structured query
document): operation text, optional variables, optional operation name,
plus the request-scoped data store the handler fills in. -/
structure GraphQLRequest where
  query : String
  variables' : Option String
  operationName : Option String
  context : Context
deriving DecidableEq, Repr

/-- Modelled from the spec: the Request Context Builder
(`add_data_loaders`, referenced by `route_handlers.rs` but whose
definition is not under `src/`) attaches exactly the database handle, the
storage client and the bucket identifier to the request's execution
context. -/
def GraphQLRequest.add_data_loaders (req : GraphQLRequest)
    (database : DatabaseConnection) (s3_client : S3Client)
    (s3_bucket : S3Bucket) : GraphQLRequest :=
  { req with
    context :=
      { database := some database
        s3Client := some s3_client
        s3Bucket := some s3_bucket } }

/-- Embedding of `async_graphql::Response` as the executor returns it: the
serialized data alongside the collected field-level error messages. -/
structure ExecutorResponse where
  responseData : Option String
  errors : List String
deriving DecidableEq, Repr

/-- Serialization of the executor's result into the structured-query
response envelope carried by `GraphQLResponse::from(..).into_response()`. -/
def serializeResponse (r : ExecutorResponse) : String :=
  "\x7b\"data\":" ++ (match r.responseData with
    | some d => d
    | none => "null") ++
  ",\"errors\":[" ++ String.intercalate "," r.errors ++ "]\x7d"

/-- A transport-level (HTTP) response: numeric status code and body. -/
structure HttpResponse where
  status : Nat
  body : String
deriving DecidableEq, Repr

/-- Embedding of `GraphQLHandler`: the executor (the `Executor` trait
object, embedded as a function from enriched request to response) together
with the three injected per-request dependencies. -/
structure GraphQLHandler where
  executor : GraphQLRequest → ExecutorResponse
  database : DatabaseConnection
  s3_client : S3Client
  s3_bucket : S3Bucket

/-- Embedding of `GraphQLHandler::call` of
`src/florescence-scan/src/route_handlers.rs`, applied to the outcome of
extracting the body as a `GraphQLRequest`: on parse success, attach the
data loaders, execute, and serialize with the success status (200); on
parse failure, respond `BAD_REQUEST` (400) with the parse error's text and
never touch the executor. -/
def GraphQLHandler.call (h : GraphQLHandler)
    (request : Except String GraphQLRequest) : HttpResponse :=
  match request with
  | .ok request =>
      { status := 200
        body := serializeResponse (h.executor
          (request.add_data_loaders h.database h.s3_client h.s3_bucket)) }
  | .error err => { status := 400, body := err }

/-- A concrete backing-store row owned by session 7, used to exercise the
theorems on concrete inputs. -/
def sampleRow : xfe_fluorescence_spectrum.Model where
  xfe_fluorescence_spectrum_id := 101
  session_id := 7
  jpeg_scan_file_full_path := some "/dls/i03/scan.jpeg"
  start_time := some ⟨1700000000⟩
  end_time := none
  filename := some "scan.mca"
  exposure_time := some ⟨12⟩
  axis_position := none
  beam_transmission := some ⟨55⟩
  scan_file_full_path := some "/dls/i03/scan.mca"
  energy := none
  beam_size_vertical := some ⟨9⟩
  beam_size_horizontal := none

/-- A concrete backing-store row owned by a different session (8). -/
def otherRow : xfe_fluorescence_spectrum.Model :=
  { sampleRow with xfe_fluorescence_spectrum_id := 102, session_id := 8 }

/-- A concrete healthy database connection holding the two sample rows. -/
def sampleDb : DatabaseConnection where
  table := [sampleRow, otherRow]
  queryFailure := none

/-- A concrete storage client. -/
def sampleClient : S3Client := ⟨0⟩

/-- A concrete bucket identifier. -/
def sampleBucket : S3Bucket := ⟨"crystal-snapshots"⟩

/-- A fully populated request context over the sample database. -/
def sampleCtx : Context where
  database := some sampleDb
  s3Client := some sampleClient
  s3Bucket := some sampleBucket

/-- A request context with no attached data at all. -/
def emptyCtx : Context := ⟨none, none, none⟩

/-- A request context with the sample database but no storage client and
no bucket identifier. -/
def noStorageCtx : Context where
  database := some sampleDb
  s3Client := none
  s3Bucket := none

/-- A concrete parsed request carrying an empty context. -/
def sampleReq : GraphQLRequest where
  query := "\x7b _entities \x7d"
  variables' := none
  operationName := none
  context := emptyCtx

/-- A concrete handler whose executor reports one field error and no
data. -/
def sampleHandler : GraphQLHandler where
  executor := fun _ => { responseData := none, errors := ["\"boom\""] }
  database := sampleDb
  s3_client := sampleClient
  s3_bucket := sampleBucket

/-- A second concrete handler, with a different executor and different
dependencies, used to show the error branch ignores both. -/
def otherHandler : GraphQLHandler where
  executor := fun _ => { responseData := some "\"d\"", errors := [] }
  database := { table := [], queryFailure := some "down" }
  s3_client := ⟨1⟩
  s3_bucket := ⟨"other"⟩

/-- Normal form of the `fluorescence_scan` resolver: its result is fully
determined by the context's database slot and the connection's pending
failure. -/
theorem fluorescence_scan_eq (s : Session) (ctx : Context) :
    s.fluorescence_scan ctx =
      match ctx.database with
      | none => .error (.missingContextValue "DatabaseConnection")
      | some db =>
        match db.queryFailure with
        | some message => .error (.databaseError message)
        | none =>
          .ok ((db.table.filter (fun row => row.session_id == s.id)).map
            FluorescenceScan.from_model) := by
  cases hdb : ctx.database with
  | none =>
      simp [Session.fluorescence_scan, Context.dataDatabaseConnection, hdb]
  | some db =>
      cases hq : db.queryFailure with
      | none =>
          simp [Session.fluorescence_scan, Context.dataDatabaseConnection,
            xfe_fluorescence_spectrum.Entity.findBySessionIdAll, hdb, hq]
      | some message =>
          simp [Session.fluorescence_scan, Context.dataDatabaseConnection,
            xfe_fluorescence_spectrum.Entity.findBySessionIdAll, hdb, hq]

/-- C1: the request handler returns a non-success status exactly when the
transport body fails to parse as a structured-query request; on parse
failure the status is 400, the body is the parse error's text, and the
response is independent of the handler (so execution, including any
database query, never starts); on any successful parse the status is the
success status 200 regardless of field-level errors. -/
theorem call_bad_request_iff_parse_failure (h h2 : GraphQLHandler)
    (r : Except String GraphQLRequest) (msg : String)
    (req : GraphQLRequest) :
    ((h.call r).status ≠ 200 ↔ ∃ e, r = .error e)
    ∧ (h.call (.error msg)).status = 400
    ∧ (h.call (.error msg)).body = msg
    ∧ h.call (.error msg) = h2.call (.error msg)
    ∧ (h.call (.ok req)).status = 200 := by
  refine ⟨?_, rfl, rfl, rfl, rfl⟩
  cases r with
  | ok req2 => simp [GraphQLHandler.call]
  | error e => simp [GraphQLHandler.call]

/-- Witness for C1: concrete parse failure and concrete parse success,
with two observably different handlers agreeing on the failure branch. -/
theorem call_bad_request_iff_parse_failure_witness :
    (sampleHandler.call (.error "invalid request body")).status = 400
    ∧ (sampleHandler.call (.error "invalid request body")).body =
        "invalid request body"
    ∧ sampleHandler.call (.error "invalid request body") =
        otherHandler.call (.error "invalid request body")
    ∧ (sampleHandler.call (.ok sampleReq)).status = 200 := by
  have h := call_bad_request_iff_parse_failure sampleHandler otherHandler
    (.error "invalid request body") "invalid request body" sampleReq
  exact ⟨h.2.1, h.2.2.1, h.2.2.2.1, h.2.2.2.2⟩

/-- C2: the federation entity resolver for `Session` returns exactly
`Session with that id` for every `u32` key: a pure total function of the
key alone, independent of the query-root value, with no failure path. -/
theorem router_session_is_stub (q q2 : Query) (id : U32) :
    q.router_session id = { id := id }
    ∧ (q.router_session id).id = id
    ∧ q.router_session id = q2.router_session id :=
  ⟨rfl, rfl, rfl⟩

/-- Resolver equation: with the database handle present and the query
succeeding, the resolver returns the filtered, mapped rows. -/
theorem fluorescence_scan_ok (s : Session) (ctx : Context)
    (db : DatabaseConnection) (hdb : ctx.database = some db)
    (hok : db.queryFailure = none) :
    s.fluorescence_scan ctx =
      .ok ((db.table.filter (fun row => row.session_id == s.id)).map
        FluorescenceScan.from_model) := by
  simp [Session.fluorescence_scan, Context.dataDatabaseConnection,
    xfe_fluorescence_spectrum.Entity.findBySessionIdAll, hdb, hok]

/-- Resolver equation: with no database handle in the context, the
resolver fails with the missing-context-value error. -/
theorem fluorescence_scan_missing (s : Session) (ctx : Context)
    (hdb : ctx.database = none) :
    s.fluorescence_scan ctx =
      .error (.missingContextValue "DatabaseConnection") := by
  simp [Session.fluorescence_scan, Context.dataDatabaseConnection, hdb]

/-- Resolver equation: with the database handle present but the query
failing, the resolver propagates the database error. -/
theorem fluorescence_scan_dbfail (s : Session) (ctx : Context)
    (db : DatabaseConnection) (message : String)
    (hdb : ctx.database = some db)
    (hq : db.queryFailure = some message) :
    s.fluorescence_scan ctx = .error (.databaseError message) := by
  simp [Session.fluorescence_scan, Context.dataDatabaseConnection,
    xfe_fluorescence_spectrum.Entity.findBySessionIdAll, hdb, hq]

/-- C3: with a database handle present and the query succeeding, the
`fluorescence_scan` resolver returns exactly the rows whose owning-session
column equals `self.id`, in the store's natural order, each mapped through
the Row Mapper with count preserved; zero matching rows yield an empty
sequence, not an error. -/
theorem fluorescence_scan_selects_and_maps (s : Session) (ctx : Context)
    (db : DatabaseConnection) (hdb : ctx.database = some db)
    (hok : db.queryFailure = none) :
    s.fluorescence_scan ctx =
      .ok ((db.table.filter (fun row => row.session_id == s.id)).map
        FluorescenceScan.from_model)
    ∧ ((db.table.filter (fun row => row.session_id == s.id)).map
        FluorescenceScan.from_model).length =
      (db.table.filter (fun row => row.session_id == s.id)).length
    ∧ (db.table.filter (fun row => row.session_id == s.id) = [] →
      s.fluorescence_scan ctx = .ok []) := by
  have hmain := fluorescence_scan_ok s ctx db hdb hok
  refine ⟨hmain, by simp, ?_⟩
  intro hempty
  rw [hmain, hempty]
  rfl

/-- Witness for C3: over the sample store, session 7 gets exactly its own
row, mapped; session 9 (no matching rows) gets the empty sequence. -/
theorem fluorescence_scan_selects_and_maps_witness :
    sampleCtx.database = some sampleDb
    ∧ sampleDb.queryFailure = none
    ∧ (Session.mk 7).fluorescence_scan sampleCtx =
        .ok [FluorescenceScan.from_model sampleRow]
    ∧ (Session.mk 9).fluorescence_scan sampleCtx = .ok [] := by
  refine ⟨rfl, rfl, ?_, ?_⟩
  · have h :=
      (fluorescence_scan_selects_and_maps ⟨7⟩ sampleCtx sampleDb rfl rfl).1
    exact h.trans (by rfl)
  · exact (fluorescence_scan_selects_and_maps ⟨9⟩ sampleCtx sampleDb rfl
      rfl).2.2 (by rfl)

/-- C4: every scan in a successfully resolved `fluorescence_scan` list has
`session_id` equal to the id of the `Session` stub used to fetch it. -/
theorem fluorescence_scan_session_id_invariant (s : Session)
    (ctx : Context) (scans : List FluorescenceScan)
    (scan : FluorescenceScan)
    (hres : s.fluorescence_scan ctx = .ok scans) (hmem : scan ∈ scans) :
    scan.session_id = s.id := by
  cases hdb : ctx.database with
  | none =>
      rw [fluorescence_scan_missing s ctx hdb] at hres
      exact absurd hres (by simp)
  | some db =>
      cases hq : db.queryFailure with
      | some message =>
          rw [fluorescence_scan_dbfail s ctx db message hdb hq] at hres
          exact absurd hres (by simp)
      | none =>
          rw [fluorescence_scan_ok s ctx db hdb hq] at hres
          have hscans : scans =
              (db.table.filter (fun row => row.session_id == s.id)).map
                FluorescenceScan.from_model := by
            injection hres with h
            exact h.symm
          subst hscans
          rcases List.mem_map.mp hmem with ⟨row, hrow, hmap⟩
          have hsid : row.session_id == s.id :=
            (List.mem_filter.mp hrow).2
          rw [← hmap]
          exact eq_of_beq hsid

/-- Witness for C4: the sample row fetched through session 7 carries
session id 7. -/
theorem fluorescence_scan_session_id_invariant_witness :
    (Session.mk 7).fluorescence_scan sampleCtx =
      .ok [FluorescenceScan.from_model sampleRow]
    ∧ FluorescenceScan.from_model sampleRow ∈
        [FluorescenceScan.from_model sampleRow]
    ∧ (FluorescenceScan.from_model sampleRow).session_id =
        (Session.mk 7).id := by
  refine ⟨by rfl, List.mem_singleton.mpr rfl, ?_⟩
  exact fluorescence_scan_session_id_invariant ⟨7⟩ sampleCtx
    [FluorescenceScan.from_model sampleRow]
    (FluorescenceScan.from_model sampleRow) (by rfl)
    (List.mem_singleton.mpr rfl)

/-- C5: the Row Mapper is a total pure function performing a field-by-field
copy: the primary key is renamed to `id`, each naive timestamp is retagged
as UTC (with null staying null and a populated timestamp keeping its
instant), and every other optional field passes through unchanged. -/
theorem from_model_field_by_field (value : xfe_fluorescence_spectrum.Model) :
    (FluorescenceScan.from_model value).id =
      value.xfe_fluorescence_spectrum_id
    ∧ (FluorescenceScan.from_model value).session_id = value.session_id
    ∧ (FluorescenceScan.from_model value).jpeg_scan_file_full_path =
        value.jpeg_scan_file_full_path
    ∧ (FluorescenceScan.from_model value).start_time =
        value.start_time.map NaiveDateTime.and_utc
    ∧ ((FluorescenceScan.from_model value).start_time = none ↔
        value.start_time = none)
    ∧ (FluorescenceScan.from_model value).end_time =
        value.end_time.map NaiveDateTime.and_utc
    ∧ ((FluorescenceScan.from_model value).end_time = none ↔
        value.end_time = none)
    ∧ (FluorescenceScan.from_model value).filename = value.filename
    ∧ (FluorescenceScan.from_model value).exposure_time =
        value.exposure_time
    ∧ (FluorescenceScan.from_model value).axis_position =
        value.axis_position
    ∧ (FluorescenceScan.from_model value).beam_transmission =
        value.beam_transmission
    ∧ (FluorescenceScan.from_model value).scan_file_full_path =
        value.scan_file_full_path
    ∧ (FluorescenceScan.from_model value).energy = value.energy
    ∧ (FluorescenceScan.from_model value).beam_size_vertical =
        value.beam_size_vertical
    ∧ (FluorescenceScan.from_model value).beam_size_horizontal =
        value.beam_size_horizontal := by
  refine ⟨rfl, rfl, rfl, rfl, ?_, rfl, ?_, rfl, rfl, rfl, rfl, rfl, rfl,
    rfl, rfl⟩ <;>
    simp [FluorescenceScan.from_model]

/-- C6: the resolver's database lookup is a checked operation: when the
handle is absent from the request context the resolver fails with the
distinct missing-context-value error (observably different from a database
error), and a request that parsed still gets the success transport status,
so the failure surfaces inside the response envelope rather than as a
transport failure. -/
theorem fluorescence_scan_requires_database (s : Session) (ctx : Context)
    (hnone : ctx.database = none) (h : GraphQLHandler)
    (req : GraphQLRequest) :
    s.fluorescence_scan ctx =
      .error (.missingContextValue "DatabaseConnection")
    ∧ (∀ message, (ResolverError.missingContextValue "DatabaseConnection" ==
        ResolverError.databaseError message) = false)
    ∧ (h.call (.ok req)).status = 200 :=
  ⟨fluorescence_scan_missing s ctx hnone, fun _ => rfl, rfl⟩

/-- Witness for C6: the empty context makes the resolver fail with the
missing-context-value error while the transport status stays 200. -/
theorem fluorescence_scan_requires_database_witness :
    emptyCtx.database = none
    ∧ (Session.mk 7).fluorescence_scan emptyCtx =
        .error (.missingContextValue "DatabaseConnection")
    ∧ (sampleHandler.call (.ok sampleReq)).status = 200 := by
  have h := fluorescence_scan_requires_database ⟨7⟩ emptyCtx rfl
    sampleHandler sampleReq
  exact ⟨rfl, h.1, h.2.2⟩

/-- C7: the path fields of every mapped scan equal the raw stored path
strings unchanged, and the resolver's result depends only on the context's
database slot — it never invokes the storage client nor reads the bucket
identifier from the request context. -/
theorem fluorescence_scan_raw_paths_no_storage
    (value : xfe_fluorescence_spectrum.Model) (s : Session)
    (ctx ctx2 : Context) (hdb : ctx.database = ctx2.database) :
    (FluorescenceScan.from_model value).jpeg_scan_file_full_path =
      value.jpeg_scan_file_full_path
    ∧ (FluorescenceScan.from_model value).scan_file_full_path =
        value.scan_file_full_path
    ∧ s.fluorescence_scan ctx = s.fluorescence_scan ctx2 := by
  refine ⟨rfl, rfl, ?_⟩
  simp [Session.fluorescence_scan, Context.dataDatabaseConnection, hdb]

/-- Witness for C7: stripping the storage client and the bucket from the
context leaves the resolver's result unchanged, and the sample row's paths
come back verbatim. -/
theorem fluorescence_scan_raw_paths_no_storage_witness :
    sampleCtx.database = noStorageCtx.database
    ∧ (FluorescenceScan.from_model sampleRow).jpeg_scan_file_full_path =
        some "/dls/i03/scan.jpeg"
    ∧ (FluorescenceScan.from_model sampleRow).scan_file_full_path =
        some "/dls/i03/scan.mca"
    ∧ (Session.mk 7).fluorescence_scan sampleCtx =
        (Session.mk 7).fluorescence_scan noStorageCtx := by
  have h := fluorescence_scan_raw_paths_no_storage sampleRow ⟨7⟩ sampleCtx
    noStorageCtx rfl
  exact ⟨rfl, h.1.trans rfl, h.2.1.trans rfl, h.2.2⟩

/-- C8: the compiled schema declares no mutation fields and no
subscription fields (read-only), enables federation, exposes `Session` as
the only federation reference target through the entity resolver, and
marks `FluorescenceScan` unresolvable, never a reference target. -/
theorem root_schema_builder_read_only_federation :
    root_schema_builder.mutationFields = []
    ∧ root_schema_builder.subscriptionFields = []
    ∧ root_schema_builder.federationEnabled = true
    ∧ root_schema_builder.referenceTargetTypes = ["Session"]
    ∧ root_schema_builder.unresolvableTypes = ["FluorescenceScan"]
    ∧ FluorescenceScan.graphqlAttrs.unresolvable = true
    ∧ Session.graphqlAttrs.unresolvable = false
    ∧ root_schema_builder.referenceTargetTypes.contains "FluorescenceScan"
        = false := by
  refine ⟨rfl, rfl, rfl, rfl, by rfl, rfl, rfl, by decide⟩

/-- C9: with a database handle present and the query succeeding, the
resolver always returns `Ok` — the per-row mapping and collection stage is
total — and any error result can arise only from a missing context value
or a database query failure. -/
theorem fluorescence_scan_total_given_query_ok (s : Session)
    (ctx : Context) (db : DatabaseConnection)
    (hdb : ctx.database = some db) (hok : db.queryFailure = none) :
    (∃ scans, s.fluorescence_scan ctx = .ok scans)
    ∧ (∀ ctx2 e, s.fluorescence_scan ctx2 = Except.error e →
        ctx2.database = none
        ∨ ∃ db2, ctx2.database = some db2
            ∧ db2.queryFailure.isSome = true) := by
  refine ⟨⟨_, fluorescence_scan_ok s ctx db hdb hok⟩, ?_⟩
  intro ctx2 e herr
  cases hdb2 : ctx2.database with
  | none => exact Or.inl rfl
  | some db2 =>
      cases hq2 : db2.queryFailure with
      | none =>
          rw [fluorescence_scan_ok s ctx2 db2 hdb2 hq2] at herr
          exact absurd herr (by simp)
      | some message => exact Or.inr ⟨db2, rfl, by simp [hq2]⟩

/-- Witness for C9: over the healthy sample store the resolver returns
`Ok`, and on the empty context its error is indeed the missing handle. -/
theorem fluorescence_scan_total_given_query_ok_witness :
    sampleCtx.database = some sampleDb
    ∧ sampleDb.queryFailure = none
    ∧ (∃ scans, (Session.mk 7).fluorescence_scan sampleCtx = .ok scans)
    ∧ emptyCtx.database = none := by
  have h := fluorescence_scan_total_given_query_ok ⟨7⟩ sampleCtx sampleDb
    rfl rfl
  exact ⟨rfl, rfl, h.1, rfl⟩

/-- C10: every identifier at the public interface is a 32-bit unsigned
integer: session ids, scan ids and owning-session ids all lie strictly
below 2^32, and the entity resolver's key domain is exactly this range. -/
theorem interface_ids_are_u32 (q : Query) (key : U32) (s : Session)
    (value : xfe_fluorescence_spectrum.Model) :
    (q.router_session key).id.val < 4294967296
    ∧ s.id.val < 4294967296
    ∧ (FluorescenceScan.from_model value).id.val < 4294967296
    ∧ (FluorescenceScan.from_model value).session_id.val < 4294967296
    ∧ key.val < 4294967296 :=
  ⟨(q.router_session key).id.isLt, s.id.isLt,
    (FluorescenceScan.from_model value).id.isLt,
    (FluorescenceScan.from_model value).session_id.isLt, key.isLt⟩
